import Mathlib

/-!
Verification of the AWS Bedrock usage-control engine.

Shallow embedding of the blocking engine implemented in
`02. Source/Lambda Functions/bedrock-realtime-usage-controller-aws-20250923/lambda_function.py`
(the realtime controller), `04. Testing/bedrock_daily_reset.py` (the daily
reset sweeper) and `03. Build_folder/bedrock_policy_manager_enhanced.py`
(the legacy policy manager).

Modelling conventions:
* Timestamps are CET wall-clock values `(day, secondOfDay)`; pytz-style
  naive datetime arithmetic on aware datetimes is wall-clock arithmetic,
  which this model captures directly.
* MySQL rows become structures; the per-user slice of the database plus the
  per-user IAM inline policy and the side-effect counters form `SysState`.
* Fallible external calls (IAM sync, email) are modelled by an `Env` of
  boolean outcomes; in-process MySQL statements succeed in the pure model.
* IAM policy documents are ordered statement lists; statement fields not
  inspected by the code (Action, Resource) are carried verbatim.
-/

/-- Stable Sid of the deny statement owned by the engine
(`DENY_STATEMENT_SID = "DailyLimitBlock"` in both lambdas). -/
def DENY_STATEMENT_SID : String := "DailyLimitBlock"

/-- CET wall-clock instant: calendar day index and second of day.
The code stores and compares `%Y-%m-%d %H:%M:%S` strings in CET, which
order exactly like this lexicographic pair. -/
structure CETTime where
  day : Nat
  sec : Nat
deriving Repr, DecidableEq

/-- Wall-clock strict order on CET timestamps. -/
def CETTime.wcLt (a b : CETTime) : Prop :=
  a.day < b.day ∨ (a.day = b.day ∧ a.sec < b.sec)

/-- Wall-clock order on CET timestamps. -/
def CETTime.wcLe (a b : CETTime) : Prop :=
  a.day < b.day ∨ (a.day = b.day ∧ a.sec ≤ b.sec)

instance (a b : CETTime) : Decidable (CETTime.wcLt a b) :=
  inferInstanceAs (Decidable (_ ∨ _))

instance (a b : CETTime) : Decidable (CETTime.wcLe a b) :=
  inferInstanceAs (Decidable (_ ∨ _))

/-- `(current_cet_time + timedelta(days=1)).replace(hour=0, minute=0,
second=0, microsecond=0)` from `execute_user_blocking`: wall-clock next
day, midnight. -/
def autoBlockedUntil (t : CETTime) : CETTime := ⟨t.day + 1, 0⟩

/-- `current_cet_time + timedelta(hours=24)` from `execute_admin_blocking`
(naive wall-clock arithmetic: same second of day, next day). -/
def plus24h (t : CETTime) : CETTime := ⟨t.day + 1, t.sec⟩

/-- One statement of an IAM inline policy document.  `sid` is `none` when
the JSON object carries no `Sid` key (the code reads it with
`stmt.get('Sid')`). -/
structure Stmt where
  sid : Option String
  effect : String
  action : List String
  resource : String
deriving Repr, DecidableEq

/-- The deny statement built by `implement_iam_blocking` in the realtime
controller. -/
def deny_statement : Stmt :=
  ⟨some DENY_STATEMENT_SID, "Deny",
   ["bedrock:InvokeModel", "bedrock:InvokeModelWithResponseStream",
    "bedrock:Converse", "bedrock:ConverseStream"], "*"⟩

/-- The allow statement of the fresh policy created by
`implement_iam_blocking` when no policy exists (four actions). -/
def bedrock_access_allow_full : Stmt :=
  ⟨some "BedrockAccess", "Allow",
   ["bedrock:InvokeModel", "bedrock:InvokeModelWithResponseStream",
    "bedrock:Converse", "bedrock:ConverseStream"], "*"⟩

/-- The fallback allow statement appended by `implement_iam_unblocking`
when stripping the deny leaves no allow statement (two actions only). -/
def bedrock_access_allow_basic : Stmt :=
  ⟨some "BedrockAccess", "Allow",
   ["bedrock:InvokeModel", "bedrock:InvokeModelWithResponseStream"], "*"⟩

/-- Document transformation of `implement_iam_blocking` on an existing
policy: drop every statement whose Sid is `DailyLimitBlock`, then insert
the deny statement at index 0. -/
def implement_iam_blocking_doc (stmts : List Stmt) : List Stmt :=
  deny_statement :: stmts.filter (fun s => decide (s.sid ≠ some DENY_STATEMENT_SID))

/-- Document transformation of `implement_iam_blocking` including the
no-policy branch (`NoSuchEntityException`): a fresh document holds the
deny statement followed by the full allow statement. -/
def implement_iam_blocking_apply (p : Option (List Stmt)) : List Stmt :=
  match p with
  | some stmts => implement_iam_blocking_doc stmts
  | none => [deny_statement, bedrock_access_allow_full]

/-- Document transformation of `implement_iam_unblocking` on an existing
policy: strip the deny Sid; if no allow statement remains, append the
basic allow statement. -/
def implement_iam_unblocking_doc (stmts : List Stmt) : List Stmt :=
  let stripped := stmts.filter (fun s => decide (s.sid ≠ some DENY_STATEMENT_SID))
  let has_allow := stripped.any (fun s => decide (s.effect = "Allow"))
  if has_allow then stripped else stripped ++ [bedrock_access_allow_basic]

/-- `implement_iam_unblocking` on a possibly missing policy: with no
policy the function returns success and writes nothing. -/
def implement_iam_unblocking_apply (p : Option (List Stmt)) : Option (List Stmt) :=
  match p with
  | some stmts => some (implement_iam_unblocking_doc stmts)
  | none => none

/-- One row of `user_limits` for one user (`daily_request_limit`,
`monthly_request_limit`, `administrative_safe` read as the flag = 'Y').
Bookkeeping columns (team, person, created_at, updated_at) are not
inspected by the control flow and are omitted. -/
structure LimitsRow where
  daily_request_limit : Nat
  monthly_request_limit : Nat
  administrative_safe : Bool
deriving Repr, DecidableEq

/-- One row of `user_blocking_status` for one user (`is_blocked` read as
the flag = 'Y').  Bookkeeping timestamp columns (last_request_at,
last_reset_at, created_at, updated_at) are not inspected by the control
flow and are omitted. -/
structure BlockingRow where
  is_blocked : Bool
  blocked_reason : Option String
  blocked_at : Option CETTime
  blocked_until : Option CETTime
  requests_at_blocking : Option Nat
deriving Repr, DecidableEq

/-- One row of `blocking_audit_log`.  The automatic block insert also
records whether the IAM sync and the email succeeded; the other inserts
leave those columns NULL. -/
structure AuditEntry where
  operation_type : String
  operation_reason : String
  performed_by : String
  timestamp : CETTime
  iam_policy_updated : Option Bool
  email_sent : Option Bool
deriving Repr, DecidableEq

/-- The `usage_info` dict assembled by `check_user_limits_with_protection`
and `get_user_current_usage`.  The percentage fields are exact rationals
modelling the Python float divisions. -/
structure UsageInfo where
  daily_requests_used : Nat
  monthly_requests_used : Nat
  daily_percent : ℚ
  monthly_percent : ℚ
  daily_limit : Nat
  monthly_limit : Nat
  administrative_safe : Bool
deriving Repr, DecidableEq

/-- Per-user slice of the persistent state touched by the engine: the two
MySQL rows, the append-only audit log, the inline IAM policy (if any), the
usage counters derived from `bedrock_requests`, and observable side-effect
counters (rows inserted into `bedrock_requests`, usage-evaluation queries
run, IAM sync attempts, email attempts). -/
structure SysState where
  blocking : Option BlockingRow
  limits : Option LimitsRow
  audit : List AuditEntry
  policy : Option (List Stmt)
  dailyCount : Nat
  monthlyCount : Nat
  requestLog : Nat
  limitEvaluations : Nat
  iamSyncAttempts : Nat
  emailAttempts : Nat
deriving Repr, DecidableEq

/-- Outcomes of the fallible external calls made inside one transition:
whether the IAM policy write succeeds and whether the notification email
is delivered. -/
structure Env where
  iamOk : Bool
  emailOk : Bool
deriving Repr, DecidableEq

/-- Defaults used when no `user_limits` row exists
(`daily_limit = 350`, `monthly_limit = 5000`, `administrative_safe = 'N'`). -/
def defaultLimits : LimitsRow := ⟨350, 5000, false⟩

/-- `check_user_limits_with_protection(connection, user_id)`: reads the
limits row (defaults if missing); with administrative protection returns
`(False, None, zeroed-usage dict)` before reading any usage; otherwise
reads the daily and monthly counters and decides blocking, daily limit
first. -/
def check_user_limits_with_protection (limits : Option LimitsRow)
    (dailyUsed monthlyUsed : Nat) : Bool × Option String × UsageInfo :=
  let l := limits.getD defaultLimits
  if l.administrative_safe then
    (false, none, ⟨0, 0, 0, 0, l.daily_request_limit, l.monthly_request_limit, true⟩)
  else
    let should_block := decide (dailyUsed ≥ l.daily_request_limit) ||
                        decide (monthlyUsed ≥ l.monthly_request_limit)
    let block_reason : Option String :=
      if dailyUsed ≥ l.daily_request_limit then some "Daily limit exceeded"
      else if monthlyUsed ≥ l.monthly_request_limit then some "Monthly limit exceeded"
      else none
    let daily_percent : ℚ :=
      if 0 < l.daily_request_limit then (dailyUsed : ℚ) / l.daily_request_limit * 100 else 0
    let monthly_percent : ℚ :=
      if 0 < l.monthly_request_limit then (monthlyUsed : ℚ) / l.monthly_request_limit * 100 else 0
    (should_block, block_reason,
     ⟨dailyUsed, monthlyUsed, daily_percent, monthly_percent,
      l.daily_request_limit, l.monthly_request_limit, false⟩)

/-- Notification calls issued by the body of
`check_user_limits_with_protection`.  Tracing the source (lambda_function.py
lines 430-517): the function only runs SELECT statements and returns; it
invokes no SNS publish, no email service and no warning helper, so its
emitted-notification list is empty for every input. -/
def check_user_limits_notifications (_limits : Option LimitsRow)
    (_dailyUsed _monthlyUsed : Nat) : List String := []

/-- `get_user_current_usage(connection, user_id)`: same reads as the
evaluator but without the protection short-circuit; returns the usage
dict. -/
def get_user_current_usage (s : SysState) : UsageInfo :=
  let l := s.limits.getD defaultLimits
  let daily_percent : ℚ :=
    if 0 < l.daily_request_limit then (s.dailyCount : ℚ) / l.daily_request_limit * 100 else 0
  let monthly_percent : ℚ :=
    if 0 < l.monthly_request_limit then (s.monthlyCount : ℚ) / l.monthly_request_limit * 100 else 0
  ⟨s.dailyCount, s.monthlyCount, daily_percent, monthly_percent,
   l.daily_request_limit, l.monthly_request_limit, l.administrative_safe⟩

/-- `ensure_user_exists`: insert a default `user_limits` row when none
exists. -/
def ensure_user_exists (s : SysState) : SysState :=
  match s.limits with
  | some _ => s
  | none => { s with limits := some defaultLimits }

/-- The `user_blocking_status` row written by step 1 of
`execute_user_blocking`. -/
def autoBlockRow (now : CETTime) (reason : String) (dailyUsed : Nat) : BlockingRow :=
  ⟨true, some reason, some now, some (autoBlockedUntil now), some dailyUsed⟩

/-- `execute_user_blocking(connection, user_id, block_reason, usage_info)`:
step 1 upserts the blocking row (blocked until next CET midnight); step 3
attempts the IAM deny policy; step 4 attempts the blocking email; step 2
then inserts the audit row recording the IAM and email outcomes.  The
function returns False when the IAM sync failed, even though the blocking
row was already written. -/
def execute_user_blocking (env : Env) (now : CETTime) (reason : String)
    (usage : UsageInfo) (s : SysState) : Bool × SysState :=
  let s1 := { s with blocking := some (autoBlockRow now reason usage.daily_requests_used) }
  let s2 := { s1 with
    iamSyncAttempts := s1.iamSyncAttempts + 1,
    policy := if env.iamOk then some (implement_iam_blocking_apply s1.policy) else s1.policy }
  let s3 := { s2 with emailAttempts := s2.emailAttempts + 1 }
  let usage_percentage : ℚ :=
    if 0 < usage.daily_limit then (usage.daily_requests_used : ℚ) / usage.daily_limit * 100 else 0
  let _ := usage_percentage
  let s4 := { s3 with audit := s3.audit ++
    [(⟨"BLOCK", reason, "system", now, some env.iamOk, some env.emailOk⟩ : AuditEntry)] }
  (env.iamOk, s4)

/-- The `user_blocking_status` row after the UPDATE of step 1 of
`execute_user_unblocking` (columns not in the SET list keep their
values). -/
def autoUnblockRow (r : BlockingRow) : BlockingRow :=
  ⟨false, some "Automatic unblock", none, none, r.requests_at_blocking⟩

/-- `execute_user_unblocking(connection, user_id)`: step 1 clears the
blocking row; step 1.5 sets `administrative_safe = 'N'`; step 2 inserts
the UNBLOCK audit row; step 3 attempts the IAM unblock and step 4 the
email, both failures only logged.  Returns True whenever step 1 succeeds. -/
def execute_user_unblocking (env : Env) (now : CETTime) (s : SysState) : Bool × SysState :=
  let s1 := { s with blocking := s.blocking.map autoUnblockRow }
  let s2 := { s1 with
    limits := s1.limits.map (fun (l : LimitsRow) => { l with administrative_safe := false }) }
  let s3 := { s2 with audit := s2.audit ++
    [(⟨"UNBLOCK", "Automatic unblock", "system", now, none, none⟩ : AuditEntry)] }
  let s4 := { s3 with
    iamSyncAttempts := s3.iamSyncAttempts + 1,
    policy := if env.iamOk then implement_iam_unblocking_apply s3.policy else s3.policy }
  let s5 := { s4 with emailAttempts := s4.emailAttempts + 1 }
  (true, s5)

/-- `check_user_blocking_status(connection, user_id)`: reads the blocking
row; when blocked with a `blocked_until` at or before the current CET time
it executes the full automatic unblocking workflow inline and, when that
succeeds, reports `(False, 'expired')`. -/
def check_user_blocking_status (env : Env) (now : CETTime) (s : SysState) :
    (Bool × Option String) × SysState :=
  match s.blocking with
  | none => ((false, none), s)
  | some r =>
    if r.is_blocked then
      match r.blocked_until with
      | some t =>
        if CETTime.wcLe t now then
          let res := execute_user_unblocking env now s
          if res.1 then ((false, some "expired"), res.2)
          else ((true, r.blocked_reason), res.2)
        else ((true, r.blocked_reason), s)
      | none => ((true, r.blocked_reason), s)
    else ((false, none), s)

/-- The `expires_at` field of an administrative block request, abstracted
by its parse outcome in `execute_admin_blocking`: missing from the event,
the literal token `'Indefinite'`, an ISO string `datetime.fromisoformat`
parses (carried as its CET instant), or an unparseable string. -/
inductive ExpiresField where
  | absent
  | indefinite
  | parseable (t : CETTime)
  | malformed
deriving Repr, DecidableEq

/-- The `blocked_until` value computed at the top of
`execute_admin_blocking`: a parseable custom date is used as given; a
parse failure falls back to the 24-hour default; `'Indefinite'` stores
NULL; a missing field uses the 24-hour default. -/
def adminBlockedUntil (now : CETTime) (e : ExpiresField) : Option CETTime :=
  match e with
  | .parseable t => some t
  | .malformed => some (plus24h now)
  | .indefinite => none
  | .absent => some (plus24h now)

/-- `execute_admin_blocking(connection, user_id, reason, performed_by,
usage_info, expires_at)`: unconditionally upserts the blocking row,
inserts a BLOCK audit row, attempts the IAM deny policy and the email,
and returns True.  There is no already-blocked check. -/
def execute_admin_blocking (env : Env) (now : CETTime) (reason performed_by : String)
    (usage : UsageInfo) (expires : ExpiresField) (s : SysState) : Bool × SysState :=
  let row : BlockingRow :=
    ⟨true, some reason, some now, adminBlockedUntil now expires, some usage.daily_requests_used⟩
  let s1 := { s with blocking := some row }
  let s2 := { s1 with audit := s1.audit ++
    [(⟨"BLOCK", reason, performed_by, now, none, none⟩ : AuditEntry)] }
  let s3 := { s2 with
    iamSyncAttempts := s2.iamSyncAttempts + 1,
    policy := if env.iamOk then some (implement_iam_blocking_apply s2.policy) else s2.policy }
  let s4 := { s3 with emailAttempts := s3.emailAttempts + 1 }
  (true, s4)

/-- `execute_admin_unblocking(connection, user_id, reason, performed_by)`:
step 1 clears the blocking row (keeping the supplied reason); step 2 sets
administrative protection, creating the limits row with protection when
missing; step 3 inserts the UNBLOCK audit row; steps 4 and 5 attempt IAM
and email.  Returns True when steps 1 and 2 succeed. -/
def execute_admin_unblocking (env : Env) (now : CETTime) (reason performed_by : String)
    (s : SysState) : Bool × SysState :=
  let clearRow : BlockingRow → BlockingRow :=
    fun r => ⟨false, some reason, none, none, r.requests_at_blocking⟩
  let s1 := { s with blocking := s.blocking.map clearRow }
  let newLimits : Option LimitsRow :=
    match s1.limits with
    | none => some ⟨350, 5000, true⟩
    | some l => some { l with administrative_safe := true }
  let s2 := { s1 with limits := newLimits }
  let s3 := { s2 with audit := s2.audit ++
    [(⟨"UNBLOCK", reason, performed_by, now, none, none⟩ : AuditEntry)] }
  let s4 := { s3 with
    iamSyncAttempts := s3.iamSyncAttempts + 1,
    policy := if env.iamOk then implement_iam_unblocking_apply s3.policy else s3.policy }
  let s5 := { s4 with emailAttempts := s4.emailAttempts + 1 }
  (true, s5)

/-- `manual_block_user(event)`: reads current usage and runs
`execute_admin_blocking`; 200 on success, 500 on failure. -/
def manual_block_user (env : Env) (now : CETTime) (reason performed_by : String)
    (expires : ExpiresField) (s : SysState) : Nat × SysState :=
  let usage := get_user_current_usage s
  let res := execute_admin_blocking env now reason performed_by usage expires s
  (if res.1 then 200 else 500, res.2)

/-- `manual_unblock_user(event)`: runs `execute_admin_unblocking`; 200 on
success, 500 on failure. -/
def manual_unblock_user (env : Env) (now : CETTime) (reason performed_by : String)
    (s : SysState) : Nat × SysState :=
  let res := execute_admin_unblocking env now reason performed_by s
  (if res.1 then 200 else 500, res.2)

/-- `handle_api_event(event, context)`: rejects events missing `action` or
`user_id` with 400, routes `block`, `unblock` and `check_status`
(`check_user_status` only reads), and rejects any other action with 400
without touching state. -/
def handle_api_event (env : Env) (now : CETTime) (action user_id : Option String)
    (reason performed_by : Option String) (expires : ExpiresField) (s : SysState) :
    Nat × SysState :=
  match action, user_id with
  | some a, some _ =>
    if a = "block" then
      manual_block_user env now (reason.getD "Manual admin block")
        (performed_by.getD "admin") expires s
    else if a = "unblock" then
      manual_unblock_user env now (reason.getD "Manual admin unblock")
        (performed_by.getD "admin") s
    else if a = "check_status" then (200, s)
    else (400, s)
  | _, _ => (400, s)

/-- Pass 1 selection predicate of the daily reset sweeper
(`unblock_all_blocked_users_and_notify`, bedrock_daily_reset.py): the SQL
`JOIN user_limits` plus `WHERE is_blocked = 'Y' AND (blocked_until IS NULL
OR blocked_until <= now)`. -/
def sweep_pass1_selects (now : CETTime) (r : BlockingRow) (hasLimitsRow : Bool) : Bool :=
  hasLimitsRow && r.is_blocked &&
    (match r.blocked_until with
     | none => true
     | some t => decide (CETTime.wcLe t now))

/-- Continuation of `handle_cloudtrail_event` for one record after the
blocking-status check: parse the full event; evaluate limits; on
`should_block` run the automatic blocking workflow and drop the request,
otherwise insert the request row. -/
def process_record_rest (env : Env) (parseOk : Bool) (now : CETTime) (s : SysState) : SysState :=
  if parseOk then
    let s1 := { s with limitEvaluations := s.limitEvaluations + 1 }
    let res := check_user_limits_with_protection s.limits s.dailyCount s.monthlyCount
    if res.1 then
      (execute_user_blocking env now ((res.2.1).getD "") res.2.2 s1).2
    else
      { s1 with requestLog := s1.requestLog + 1,
                dailyCount := s1.dailyCount + 1,
                monthlyCount := s1.monthlyCount + 1 }
  else s

/-- Per-record body of `handle_cloudtrail_event`: extract the user (skip
when impossible), resolve team and person tags, skip entirely when both
are unknown, ensure the limits row exists, check blocking status (which
may auto-unblock an expired block), skip blocked users, then parse,
evaluate and log or block. -/
def process_cloudtrail_record (env : Env) (hasUser : Bool) (team person : String)
    (parseOk : Bool) (now : CETTime) (s : SysState) : SysState :=
  if hasUser then
    if team = "unknown" ∧ person = "Unknown" then s
    else
      let s1 := ensure_user_exists s
      let chk := check_user_blocking_status env now s1
      if chk.1.2 = some "expired" then process_record_rest env parseOk now chk.2
      else if chk.1.1 then chk.2
      else process_record_rest env parseOk now chk.2
  else s

/-- `create_deny_statement` of the legacy policy manager
(bedrock_policy_manager_enhanced.py): two actions only. -/
def pm_deny_statement : Stmt :=
  ⟨some DENY_STATEMENT_SID, "Deny",
   ["bedrock:InvokeModel", "bedrock:InvokeModelWithResponseStream"], "*"⟩

/-- The base policy created by `get_or_create_user_policy` when no inline
policy exists. -/
def pm_base_policy : List Stmt :=
  [⟨some "BedrockAccess", "Allow",
    ["bedrock:InvokeModel", "bedrock:InvokeModelWithResponseStream"], "*"⟩]

/-- `is_user_blocked(policy)` of the policy manager: some statement has
the deny Sid and effect `Deny`. -/
def pm_is_user_blocked (stmts : List Stmt) : Bool :=
  stmts.any (fun s => decide (s.sid = some DENY_STATEMENT_SID) && decide (s.effect = "Deny"))

/-- `add_deny_statement(policy, deny_statement)` of the policy manager:
drop any statement with the deny Sid, then insert the deny statement at
index 0. -/
def pm_add_deny_statement (stmts : List Stmt) : List Stmt :=
  pm_deny_statement :: stmts.filter (fun s => decide (s.sid ≠ some DENY_STATEMENT_SID))

/-- `int(daily_limit * 0.8)` of `block_user_access`: for the integer
limits involved the float product truncates to `4 * limit / 5`. -/
def pm_warning_threshold (daily_limit : Nat) : Nat := 4 * daily_limit / 5

/-- Observable outcome of one `block_user_access` call of the legacy
policy manager: the HTTP status, the already-blocked indicator, whether
the 80% warning was attempted and whether it was delivered, whether
`get_or_create_user_policy` had to create a base policy, the policy
written by the block path (if any), and whether the DynamoDB record
update, the block notification and the history entry happened. -/
structure BlockAccessResult where
  statusCode : Nat
  already_blocked : Bool
  warningAttempted : Bool
  warningDelivered : Bool
  basePolicyCreated : Bool
  policyWritten : Option (List Stmt)
  dynamoUpdated : Bool
  blockNotified : Bool
  historyLogged : Bool
deriving Repr, DecidableEq

/-- `block_user_access(user_id, reason, usage_record, event)` of the
legacy policy manager: sends the 80% warning when
`warning_threshold <= request_count < daily_limit` (delivery failures are
swallowed inside `send_warning_notification`), fetches or creates the
policy, returns an already-blocked no-op when the deny statement is
present, and otherwise writes the deny statement, updates the DynamoDB
record, notifies and logs history. -/
def block_user_access (request_count daily_limit : Nat) (policy : Option (List Stmt))
    (warnOk : Bool) : BlockAccessResult :=
  let warn := decide (pm_warning_threshold daily_limit ≤ request_count) &&
              decide (request_count < daily_limit)
  let current := policy.getD pm_base_policy
  let baseCreated := policy.isNone
  if pm_is_user_blocked current then
    ⟨200, true, warn, warn && warnOk, baseCreated, none, false, false, false⟩
  else
    ⟨200, false, warn, warn && warnOk, baseCreated,
     some (pm_add_deny_statement current), true, true, true⟩

/-- Concrete usage snapshot shared by several witnesses. -/
def witnessUsage : UsageInfo := ⟨3, 3, 0, 0, 3, 5, false⟩

/-- Concrete empty per-user state shared by several witnesses. -/
def witnessState : SysState := ⟨none, none, [], none, 0, 0, 0, 0, 0, 0⟩

/-- Claim C1: policy-sync failure is asymmetric: when the BlockRecord
write succeeds but the IAM deny-policy creation fails, the automatic
blocking operation returns failure even though the blocking row was
written, while an automatic unblocking operation with a failing IAM sync
still returns success. -/
theorem c1_policy_sync_failure_asymmetry (env : Env) (now : CETTime)
    (reason : String) (usage : UsageInfo) (sB sU : SysState)
    (h : env.iamOk = false) :
    (execute_user_blocking env now reason usage sB).1 = false ∧
    (execute_user_blocking env now reason usage sB).2.blocking
      = some (autoBlockRow now reason usage.daily_requests_used) ∧
    (execute_user_unblocking env now sU).1 = true := by
  simp [execute_user_blocking, execute_user_unblocking, h]

/-- Witness for C1 at a concrete failing-IAM environment. -/
theorem c1_policy_sync_failure_asymmetry_witness :
    (execute_user_blocking ⟨false, true⟩ ⟨0, 0⟩ "Daily limit exceeded" witnessUsage witnessState).1 = false ∧
    (execute_user_blocking ⟨false, true⟩ ⟨0, 0⟩ "Daily limit exceeded" witnessUsage witnessState).2.blocking
      = some (autoBlockRow ⟨0, 0⟩ "Daily limit exceeded" witnessUsage.daily_requests_used) ∧
    (execute_user_unblocking ⟨false, true⟩ ⟨0, 0⟩ witnessState).1 = true :=
  c1_policy_sync_failure_asymmetry ⟨false, true⟩ ⟨0, 0⟩ "Daily limit exceeded"
    witnessUsage witnessState witnessState rfl

/-- Claim C2 counterexample: a BLOCKED row with `blocked_until` NULL (an
indefinite block) IS selected by the sweeper pass-1 query, contradicting
the claim that indefinite blocks are never selected. -/
theorem c2_sweeper_selects_indefinite_counterexample :
    sweep_pass1_selects ⟨0, 0⟩ ⟨true, some "Manual admin block", some ⟨0, 0⟩, none, some 0⟩ true
      = true := rfl

/-- Claim C2 (amended): the sweeper pass 1 selects every BLOCKED account
whose `blocked_until` is NULL, at every query time: an indefinite
administrative block (expires_at = 'Indefinite') produces such a row and
is therefore auto-unblocked by the next daily reset sweep. -/
theorem c2_indefinite_blocks_are_swept (env : Env) (now tq : CETTime)
    (reason pb : String) (usage : UsageInfo) (s : SysState) :
    ∃ row : BlockingRow,
      (execute_admin_blocking env now reason pb usage ExpiresField.indefinite s).2.blocking
        = some row ∧
      row.blocked_until = none ∧
      sweep_pass1_selects tq row true = true := by
  refine ⟨⟨true, some reason, some now, none, some usage.daily_requests_used⟩, ?_, rfl, rfl⟩
  simp [execute_admin_blocking, adminBlockedUntil]

/-- Claim C3: administrative protection (`administrative_safe = 'Y'`)
makes the usage evaluation return shouldBlock = false with no reason,
whatever the usage counters are. -/
theorem c3_protection_overrides_blocking (l : LimitsRow) (d m : Nat)
    (h : l.administrative_safe = true) :
    (check_user_limits_with_protection (some l) d m).1 = false ∧
    (check_user_limits_with_protection (some l) d m).2.1 = none := by
  simp [check_user_limits_with_protection, h]

/-- Witness for C3 with usage far above both limits. -/
theorem c3_protection_overrides_blocking_witness :
    (check_user_limits_with_protection (some ⟨3, 5, true⟩) 100 200).1 = false ∧
    (check_user_limits_with_protection (some ⟨3, 5, true⟩) 100 200).2.1 = none :=
  c3_protection_overrides_blocking ⟨3, 5, true⟩ 100 200 rfl

/-- Claim C7: the automatic-block expiration is strictly after the block
time and is the least local CET midnight strictly after it (wall-clock
arithmetic; Europe/Madrid DST shifts happen at 02:00/03:00, so local
midnight always exists and the wall-clock computation is unaffected). -/
theorem c7_expiration_monotonicity (t : CETTime) :
    CETTime.wcLt t (autoBlockedUntil t) ∧
    (autoBlockedUntil t).sec = 0 ∧
    ∀ m : CETTime, m.sec = 0 → CETTime.wcLt t m → CETTime.wcLe (autoBlockedUntil t) m := by
  refine ⟨Or.inl (Nat.lt_succ_self _), rfl, ?_⟩
  intro m hm hlt
  have hday : t.day + 1 ≤ m.day := by
    rcases hlt with h | ⟨hd, hs⟩
    · exact h
    · rw [hm] at hs
      exact absurd hs (Nat.not_lt_zero _)
  rcases Nat.lt_or_eq_of_le hday with h2 | h2
  · exact Or.inl h2
  · exact Or.inr ⟨h2, Nat.zero_le _⟩

/-- Witness for C7 at a concrete block instant and candidate midnight. -/
theorem c7_expiration_monotonicity_witness :
    CETTime.wcLe (autoBlockedUntil ⟨0, 100⟩) ⟨1, 0⟩ :=
  (c7_expiration_monotonicity ⟨0, 100⟩).2.2 ⟨1, 0⟩ rfl (by decide)

/-- Claim C9: a status check on a user whose block has expired performs
the full automatic unblocking workflow inline (row cleared,
administrative protection cleared, UNBLOCK audit row appended, IAM sync
and email attempted) and returns not-blocked with the marker expired. -/
theorem c9_status_check_triggers_unblock (env : Env) (now t : CETTime)
    (r : BlockingRow) (l : LimitsRow) (s : SysState)
    (hb : s.blocking = some r) (hy : r.is_blocked = true)
    (hu : r.blocked_until = some t) (hl : s.limits = some l)
    (ht : CETTime.wcLe t now) :
    (check_user_blocking_status env now s).1 = (false, some "expired") ∧
    (check_user_blocking_status env now s).2.blocking = some (autoUnblockRow r) ∧
    (check_user_blocking_status env now s).2.limits
      = some { l with administrative_safe := false } ∧
    (check_user_blocking_status env now s).2.audit
      = s.audit ++ [(⟨"UNBLOCK", "Automatic unblock", "system", now, none, none⟩ : AuditEntry)] ∧
    (check_user_blocking_status env now s).2.iamSyncAttempts = s.iamSyncAttempts + 1 ∧
    (check_user_blocking_status env now s).2.emailAttempts = s.emailAttempts + 1 := by
  simp [check_user_blocking_status, execute_user_unblocking, hb, hy, hu, hl, ht]

/-- Witness for C9 at a concrete expired-block state. -/
theorem c9_status_check_triggers_unblock_witness :
    (check_user_blocking_status ⟨true, true⟩ ⟨1, 30⟩
        (⟨some ⟨true, some "Daily limit exceeded", some ⟨0, 50⟩, some ⟨1, 0⟩, some 3⟩,
          some ⟨350, 5000, true⟩, [], none, 0, 0, 0, 0, 0, 0⟩ : SysState)).1
      = (false, some "expired") ∧
    (check_user_blocking_status ⟨true, true⟩ ⟨1, 30⟩
        (⟨some ⟨true, some "Daily limit exceeded", some ⟨0, 50⟩, some ⟨1, 0⟩, some 3⟩,
          some ⟨350, 5000, true⟩, [], none, 0, 0, 0, 0, 0, 0⟩ : SysState)).2.blocking
      = some (autoUnblockRow ⟨true, some "Daily limit exceeded", some ⟨0, 50⟩, some ⟨1, 0⟩, some 3⟩) ∧
    (check_user_blocking_status ⟨true, true⟩ ⟨1, 30⟩
        (⟨some ⟨true, some "Daily limit exceeded", some ⟨0, 50⟩, some ⟨1, 0⟩, some 3⟩,
          some ⟨350, 5000, true⟩, [], none, 0, 0, 0, 0, 0, 0⟩ : SysState)).2.limits
      = some { (⟨350, 5000, true⟩ : LimitsRow) with administrative_safe := false } ∧
    (check_user_blocking_status ⟨true, true⟩ ⟨1, 30⟩
        (⟨some ⟨true, some "Daily limit exceeded", some ⟨0, 50⟩, some ⟨1, 0⟩, some 3⟩,
          some ⟨350, 5000, true⟩, [], none, 0, 0, 0, 0, 0, 0⟩ : SysState)).2.audit
      = [] ++ [(⟨"UNBLOCK", "Automatic unblock", "system", ⟨1, 30⟩, none, none⟩ : AuditEntry)] ∧
    (check_user_blocking_status ⟨true, true⟩ ⟨1, 30⟩
        (⟨some ⟨true, some "Daily limit exceeded", some ⟨0, 50⟩, some ⟨1, 0⟩, some 3⟩,
          some ⟨350, 5000, true⟩, [], none, 0, 0, 0, 0, 0, 0⟩ : SysState)).2.iamSyncAttempts = 0 + 1 ∧
    (check_user_blocking_status ⟨true, true⟩ ⟨1, 30⟩
        (⟨some ⟨true, some "Daily limit exceeded", some ⟨0, 50⟩, some ⟨1, 0⟩, some 3⟩,
          some ⟨350, 5000, true⟩, [], none, 0, 0, 0, 0, 0, 0⟩ : SysState)).2.emailAttempts = 0 + 1 :=
  c9_status_check_triggers_unblock ⟨true, true⟩ ⟨1, 30⟩ ⟨1, 0⟩
    ⟨true, some "Daily limit exceeded", some ⟨0, 50⟩, some ⟨1, 0⟩, some 3⟩
    ⟨350, 5000, true⟩
    ⟨some ⟨true, some "Daily limit exceeded", some ⟨0, 50⟩, some ⟨1, 0⟩, some 3⟩,
      some ⟨350, 5000, true⟩, [], none, 0, 0, 0, 0, 0, 0⟩
    rfl rfl rfl rfl (by decide)

/-- Claim C10: a CloudTrail usage event whose user resolves to team
unknown and person Unknown is skipped before any database access: no
limits row is created, no blocking-status check or unblock runs, no limit
evaluation runs, no request row is inserted and no block happens — the
state is unchanged. -/
theorem c10_unknown_team_person_skipped (env : Env) (parseOk : Bool)
    (now : CETTime) (s : SysState) :
    process_cloudtrail_record env true "unknown" "Unknown" parseOk now s = s := rfl

/-- Concrete state of a user already BLOCKED by an earlier automatic
block, used by the C4 counterexample. -/
def blockedStateC4 : SysState :=
  ⟨some ⟨true, some "Daily limit exceeded", some ⟨0, 10⟩, some ⟨1, 0⟩, some 350⟩,
   some ⟨350, 5000, false⟩,
   [⟨"BLOCK", "Daily limit exceeded", "system", ⟨0, 10⟩, some true, some true⟩],
   some [deny_statement, bedrock_access_allow_full], 350, 350, 350, 1, 1, 1⟩

/-- Claim C4 counterexample: a second block request on an already-BLOCKED
account via manual admin blocking of the realtime controller is NOT a
no-op: a new audit row is inserted and another notification is attempted
(execute_admin_blocking has no already-blocked check). -/
theorem c4_admin_reblock_counterexample :
    blockedStateC4.blocking.map BlockingRow.is_blocked = some true ∧
    ((handle_api_event ⟨true, true⟩ ⟨1, 12⟩ (some "block") (some "u") none none
        ExpiresField.absent blockedStateC4).2.audit).length
      = blockedStateC4.audit.length + 1 ∧
    (handle_api_event ⟨true, true⟩ ⟨1, 12⟩ (some "block") (some "u") none none
        ExpiresField.absent blockedStateC4).2.emailAttempts
      = blockedStateC4.emailAttempts + 1 :=
  ⟨rfl, rfl, rfl⟩

/-- Claim C4 (amended): only the legacy policy-manager block path is
idempotent: with the deny statement already present, `block_user_access`
returns 200 with the already-blocked indicator and performs no policy
write, no record update, no block notification and no history entry;
the realtime controller's admin block path repeats all side effects. -/
theorem c4_already_blocked_policy_manager_noop (rc dl : Nat) (stmts : List Stmt)
    (w : Bool) (h : pm_is_user_blocked stmts = true) :
    (block_user_access rc dl (some stmts) w).statusCode = 200 ∧
    (block_user_access rc dl (some stmts) w).already_blocked = true ∧
    (block_user_access rc dl (some stmts) w).basePolicyCreated = false ∧
    (block_user_access rc dl (some stmts) w).policyWritten = none ∧
    (block_user_access rc dl (some stmts) w).dynamoUpdated = false ∧
    (block_user_access rc dl (some stmts) w).blockNotified = false ∧
    (block_user_access rc dl (some stmts) w).historyLogged = false := by
  simp [block_user_access, h]

/-- Witness for the amended C4 at a concrete blocked policy. -/
theorem c4_already_blocked_policy_manager_noop_witness :
    (block_user_access 0 250 (some [pm_deny_statement]) true).statusCode = 200 ∧
    (block_user_access 0 250 (some [pm_deny_statement]) true).already_blocked = true ∧
    (block_user_access 0 250 (some [pm_deny_statement]) true).basePolicyCreated = false ∧
    (block_user_access 0 250 (some [pm_deny_statement]) true).policyWritten = none ∧
    (block_user_access 0 250 (some [pm_deny_statement]) true).dynamoUpdated = false ∧
    (block_user_access 0 250 (some [pm_deny_statement]) true).blockNotified = false ∧
    (block_user_access 0 250 (some [pm_deny_statement]) true).historyLogged = false :=
  c4_already_blocked_policy_manager_noop 0 250 [pm_deny_statement] true (by decide)

/-- A deny statement with a foreign Sid, used by the C5 counterexample:
the document carries one statement, which does not carry the deny Sid and
is not an allow statement. -/
def otherDenyStmt : Stmt := ⟨some "OtherSid", "Deny", ["bedrock:InvokeModel"], "*"⟩

/-- Claim C5 counterexample: on a document whose statements carry neither
the deny Sid nor any Allow effect, AddDeny then RemoveDeny does not
return the original document — RemoveDeny appends the default allow
statement. -/
theorem c5_roundtrip_counterexample :
    (∀ s ∈ [otherDenyStmt], s.sid ≠ some DENY_STATEMENT_SID) ∧
    implement_iam_unblocking_doc (implement_iam_blocking_doc [otherDenyStmt])
      ≠ [otherDenyStmt] := by
  decide

/-- Claim C5 (amended): AddDeny then RemoveDeny preserves a document
exactly when none of its statements carries the deny Sid AND at least one
statement has effect Allow (otherwise the default allow is appended). -/
theorem c5_roundtrip_preserves (stmts : List Stmt)
    (h1 : ∀ s ∈ stmts, s.sid ≠ some DENY_STATEMENT_SID)
    (h2 : ∃ s ∈ stmts, s.effect = "Allow") :
    implement_iam_unblocking_doc (implement_iam_blocking_doc stmts) = stmts := by
  have hfilter : stmts.filter (fun s => decide (s.sid ≠ some DENY_STATEMENT_SID)) = stmts :=
    List.filter_eq_self.mpr (fun a ha => decide_eq_true (h1 a ha))
  have hany : stmts.any (fun s => decide (s.effect = "Allow")) = true := by
    rcases h2 with ⟨a, ha, hall⟩
    exact List.any_eq_true.mpr ⟨a, ha, decide_eq_true hall⟩
  simp only [implement_iam_blocking_doc, hfilter, implement_iam_unblocking_doc]
  rw [List.filter_cons_of_neg]
  · rw [hfilter, hany]
    simp
  · decide

/-- Witness for the amended C5 at a one-statement allow document. -/
theorem c5_roundtrip_preserves_witness :
    implement_iam_unblocking_doc (implement_iam_blocking_doc [bedrock_access_allow_basic])
      = [bedrock_access_allow_basic] :=
  c5_roundtrip_preserves [bedrock_access_allow_basic] (by decide) (by decide)

/-- Concrete not-blocked state used by the C6 counterexample. -/
def activeStateC6 : SysState :=
  ⟨some ⟨false, none, none, none, none⟩, some ⟨350, 5000, false⟩, [],
   some [bedrock_access_allow_full], 5, 10, 5, 0, 0, 0⟩

/-- Claim C6 counterexample: a block request with an unparseable
`expires_at` is NOT rejected: it returns 200, the 24-hour default
expiration is substituted, the blocking row is written and an audit row
is inserted. -/
theorem c6_malformed_expiry_accepted_counterexample :
    (handle_api_event ⟨true, true⟩ ⟨2, 30⟩ (some "block") (some "u") none none
        ExpiresField.malformed activeStateC6).1 = 200 ∧
    ((handle_api_event ⟨true, true⟩ ⟨2, 30⟩ (some "block") (some "u") none none
        ExpiresField.malformed activeStateC6).2.audit).length
      = activeStateC6.audit.length + 1 ∧
    (handle_api_event ⟨true, true⟩ ⟨2, 30⟩ (some "block") (some "u") none none
        ExpiresField.malformed activeStateC6).2.blocking
      = some ⟨true, some "Manual admin block", some ⟨2, 30⟩, some ⟨3, 30⟩, some 5⟩ :=
  ⟨rfl, rfl, rfl⟩

/-- Claim C6 (amended): an unknown action is rejected with 400 and no
state mutation, but an unparseable `expires_at` on a block request is not
rejected: the code silently substitutes the 24-hour default and the block
proceeds with full side effects. -/
theorem c6_unknown_action_rejected (env : Env) (now : CETTime) (a u : String)
    (r p : Option String) (e : ExpiresField) (s : SysState)
    (h1 : a ≠ "block") (h2 : a ≠ "unblock") (h3 : a ≠ "check_status") :
    handle_api_event env now (some a) (some u) r p e s = (400, s) ∧
    (handle_api_event env now (some "block") (some u) r p ExpiresField.malformed s).1 = 200 ∧
    (handle_api_event env now (some "block") (some u) r p
        ExpiresField.malformed s).2.blocking
      = some ⟨true, some (r.getD "Manual admin block"), some now, some (plus24h now),
              some (get_user_current_usage s).daily_requests_used⟩ ∧
    ((handle_api_event env now (some "block") (some u) r p
        ExpiresField.malformed s).2.audit).length = s.audit.length + 1 := by
  refine ⟨?_, ?_, ?_, ?_⟩
  · simp [handle_api_event, h1, h2, h3]
  · simp [handle_api_event, manual_block_user, execute_admin_blocking]
  · simp [handle_api_event, manual_block_user, execute_admin_blocking, adminBlockedUntil]
  · simp [handle_api_event, manual_block_user, execute_admin_blocking]

/-- Witness for the amended C6 at a concrete unknown action. -/
theorem c6_unknown_action_rejected_witness :
    handle_api_event ⟨true, true⟩ ⟨2, 30⟩ (some "Block") (some "u") none none
        ExpiresField.absent witnessState = (400, witnessState) ∧
    (handle_api_event ⟨true, true⟩ ⟨2, 30⟩ (some "block") (some "u") none none
        ExpiresField.malformed witnessState).1 = 200 ∧
    (handle_api_event ⟨true, true⟩ ⟨2, 30⟩ (some "block") (some "u") none none
        ExpiresField.malformed witnessState).2.blocking
      = some ⟨true, some ((none : Option String).getD "Manual admin block"), some ⟨2, 30⟩,
              some (plus24h ⟨2, 30⟩),
              some (get_user_current_usage witnessState).daily_requests_used⟩ ∧
    ((handle_api_event ⟨true, true⟩ ⟨2, 30⟩ (some "block") (some "u") none none
        ExpiresField.malformed witnessState).2.audit).length
      = witnessState.audit.length + 1 :=
  c6_unknown_action_rejected ⟨true, true⟩ ⟨2, 30⟩ "Block" "u" none none
    ExpiresField.absent witnessState (by decide) (by decide) (by decide)

/-- Claim C8 counterexample: at an unblocked account whose daily usage
sits exactly at 80 percent of the daily limit (280 of 350), the realtime
usage evaluation emits no warning notification at all and returns
shouldBlock = false. -/
theorem c8_no_warning_in_evaluator_counterexample :
    check_user_limits_notifications (some ⟨350, 5000, false⟩) 280 100 = [] ∧
    (check_user_limits_with_protection (some ⟨350, 5000, false⟩) 280 100).1 = false ∧
    280 * 5 = 350 * 4 :=
  ⟨rfl, rfl, rfl⟩

/-- Claim C8 (amended): the realtime usage evaluator emits no warning
notification for any input; the 80 percent warning exists only in the
legacy policy-manager block path, where it is attempted exactly when the
request count lies in [int(0.8 * daily_limit), daily_limit), and the
outcome of the warning delivery changes nothing in the result except the
delivery flag itself. -/
theorem c8_warning_only_in_policy_manager (limits : Option LimitsRow) (d m rc dl : Nat)
    (p : Option (List Stmt)) (w1 w2 : Bool) :
    check_user_limits_notifications limits d m = [] ∧
    (block_user_access rc dl p w1).warningAttempted
      = (decide (pm_warning_threshold dl ≤ rc) && decide (rc < dl)) ∧
    ({ block_user_access rc dl p w1 with warningDelivered := false }
      = { block_user_access rc dl p w2 with warningDelivered := false }) := by
  refine ⟨rfl, ?_, ?_⟩
  · by_cases hc : pm_is_user_blocked (p.getD pm_base_policy) = true <;>
      simp [block_user_access, hc]
  · by_cases hc : pm_is_user_blocked (p.getD pm_base_policy) = true <;>
      simp [block_user_access, hc]
